import Mathlib

/-!
Verification of `aws/resource_aws_s3_bucket.go` (Terraform AWS provider, S3 bucket
resource): a shallow embedding of the functions the specification talks about, and
proofs of the specified properties.

Conventions used throughout:
* Go `map[string]interface{}` values are embedded as association lists
  (`AttrMap`) over an `Attr` value type; a Go map is only observable through key
  lookup, which `lookupA` models (first binding wins; Go maps have unique keys).
* Go byte-lengths (`len` on a string) are modelled by character counts: every
  character class validated here is ASCII, where the two coincide, and any
  string containing a non-ASCII character is rejected by the character-class
  checks of both the source and the model, so acceptance is unaffected.
* Fallible Go code returns `Except`/`Option`; a Go `panic` from a failed type
  assertion `v.(T)` is modelled as `Option.none`.
* The remote S3 control plane is modelled explicitly where a claim quantifies
  over its behaviour (bucket deletion), and as a response-valued parameter
  where only the request matters.
-/

/-! ## Go value model: `map[string]interface{}` as association lists -/

/-- A Go `interface{}` value as stored in the helper-schema attribute maps of the
source: strings, ints, bools, tag maps (`map[string]interface{}` of strings),
`*schema.Set` values (lists of possibly-nil element maps) and `[]interface{}`
values (lists of possibly-nil element maps). -/
inductive Attr where
  | str (s : String)
  | int (n : Int)
  | bool (b : Bool)
  | tags (m : List (String × String))
  | set (elems : List (Option (List (String × Attr))))
  | list (elems : List (Option (List (String × Attr))))

/-- A Go `map[string]interface{}`, observed through lookups only. -/
abbrev AttrMap := List (String × Attr)

/-- Key lookup in an attribute map (Go map indexing `m[k]` with the comma-ok
presence bit folded into `Option`). -/
def lookupA : AttrMap → String → Option Attr
  | [], _ => none
  | (k, v) :: rest, key => if k = key then some v else lookupA rest key

/-- Go pattern `if v, ok := m[k]; ok { buf.WriteString(fmt.Sprintf("%s-", v.(string))) }`:
absent key contributes nothing; a present non-string value makes the type
assertion panic (`none`). Returns the written fragment. -/
def goStrField (m : AttrMap) (k : String) : Option String :=
  match lookupA m k with
  | none => some ""
  | some (.str s) => some (s ++ "-")
  | some _ => none

/-- Go pattern `if v, ok := m[k]; ok { ... fmt.Sprintf("%d-", v.(int)) ... }`. -/
def goIntField (m : AttrMap) (k : String) : Option String :=
  match lookupA m k with
  | none => some ""
  | some (.int n) => some (toString n ++ "-")
  | some _ => none

/-- Go pattern `if v, ok := m[k]; ok { ... fmt.Sprintf("%t-", v.(bool)) ... }`. -/
def goBoolField (m : AttrMap) (k : String) : Option String :=
  match lookupA m k with
  | none => some ""
  | some (.bool b) => some ((if b then "true" else "false") ++ "-")
  | some _ => none

/-! ## Fingerprint functions (source lines 2337-2465)

Each Go hash function builds a canonical string from the record's fields in a
fixed declared order and applies `hashcode.String` to it.  `hashcode.String`
lives in an external helper package, so the digest step is kept abstract: every
function below is parameterised by the string-to-digest function
`f : String → Int`; the canonical string construction is translated from the
source.  The result is `Option Int`, `none` marking a Go panic on an ill-typed
map. -/

/-- Modelled from the spec: the helper `tagsMapToHash` is code of this
repository that lives outside the given source file.  Per the spec's
Fingerprint contract it is a pure, deterministic, order-independent digest of a
tag map; the commutative sum over per-entry digests realises exactly that. -/
def tagsMapToHash (f : String → Int) (m : List (String × String)) : Int :=
  (m.map (fun kv => f (kv.1 ++ "=" ++ kv.2))).sum

/-- Canonical string of `expirationHash` (source lines 2337-2350). -/
def expirationHashString (m : AttrMap) : Option String := do
  let d ← goStrField m "date"
  let dy ← goIntField m "days"
  let em ← goBoolField m "expired_object_delete_marker"
  pure (d ++ dy ++ em)

/-- `expirationHash` (source lines 2337-2350), digest step abstract. -/
def expirationHash (f : String → Int) (m : AttrMap) : Option Int :=
  (expirationHashString m).map f

/-- Canonical string of `transitionHash` (source lines 2352-2365). -/
def transitionHashString (m : AttrMap) : Option String := do
  let d ← goStrField m "date"
  let dy ← goIntField m "days"
  let sc ← goStrField m "storage_class"
  pure (d ++ dy ++ sc)

/-- `transitionHash` (source lines 2352-2365), digest step abstract. -/
def transitionHash (f : String → Int) (m : AttrMap) : Option Int :=
  (transitionHashString m).map f

/-- Canonical string of `accessControlTranslationHash` (source lines 2429-2441);
a nil argument hashes to the fragment of the constant digest 0 at its call
site, handled by the caller. -/
def accessControlTranslationHashString (m : AttrMap) : Option String :=
  goStrField m "owner"

/-- `accessControlTranslationHash` (source lines 2429-2441): nil input returns 0. -/
def accessControlTranslationHash (f : String → Int) (v : Option AttrMap) : Option Int :=
  match v with
  | none => some 0
  | some m => (accessControlTranslationHashString m).map f

/-- Canonical string of `destinationHash` (source lines 2407-2427).  Note the
fourth field looks up the key "account", not the schema attribute name
"account_id". -/
def destinationHashString (f : String → Int) (m : AttrMap) : Option String := do
  let b ← goStrField m "bucket"
  let sc ← goStrField m "storage_class"
  let rk ← goStrField m "replica_kms_key_id"
  let ac ← goStrField m "account"
  let act ← match lookupA m "access_control_translation" with
    | some (.list (e :: _)) =>
        match e with
        | some em => do
            let h ← accessControlTranslationHash f (some em)
            pure (toString h ++ "-")
        | none => pure ""
    | _ => pure ""
  pure (b ++ sc ++ rk ++ ac ++ act)

/-- `destinationHash` (source lines 2407-2427), digest step abstract. -/
def destinationHash (f : String → Int) (m : AttrMap) : Option Int :=
  (destinationHashString f m).map f

/-- Canonical string of `sourceSseKmsObjectsHash` (source lines 2457-2465). -/
def sourceSseKmsObjectsHashString (m : AttrMap) : Option String :=
  goBoolField m "enabled"

/-- `sourceSseKmsObjectsHash` (source lines 2457-2465). -/
def sourceSseKmsObjectsHash (f : String → Int) (m : AttrMap) : Option Int :=
  (sourceSseKmsObjectsHashString m).map f

/-- Canonical string of `sourceSelectionCriteriaHash` (source lines 2443-2455):
the sub-set's first element is hashed without a nil check, so a nil element
panics (`none`). -/
def sourceSelectionCriteriaHashString (f : String → Int) (m : AttrMap) : Option String :=
  match lookupA m "sse_kms_encrypted_objects" with
  | some (.set (some em :: _)) => do
      let h ← sourceSseKmsObjectsHash f em
      pure (toString h ++ "-")
  | some (.set (none :: _)) => none
  | _ => some ""

/-- `sourceSelectionCriteriaHash` (source lines 2443-2455): nil input returns 0. -/
def sourceSelectionCriteriaHash (f : String → Int) (v : Option AttrMap) : Option Int :=
  match v with
  | none => some 0
  | some m => (sourceSelectionCriteriaHashString f m).map f

/-- Canonical string of `replicationRuleFilterHash` (source lines 2395-2405);
the "tags" field is digested through `tagsMapToHash`. -/
def replicationRuleFilterHashString (f : String → Int) (m : AttrMap) : Option String := do
  let p ← goStrField m "prefix"
  let t ← match lookupA m "tags" with
    | none => pure ""
    | some (.tags tm) => pure (toString (tagsMapToHash f tm) ++ "-")
    | some _ => none
  pure (p ++ t)

/-- `replicationRuleFilterHash` (source lines 2395-2405), digest step abstract. -/
def replicationRuleFilterHash (f : String → Int) (m : AttrMap) : Option Int :=
  (replicationRuleFilterHashString f m).map f

/-- Canonical string of `rulesHash` (source lines 2367-2393). -/
def rulesHashString (f : String → Int) (m : AttrMap) : Option String := do
  let i ← goStrField m "id"
  let p ← goStrField m "prefix"
  let s ← goStrField m "status"
  let d ← match lookupA m "destination" with
    | some (.set (e :: _)) =>
        match e with
        | some em => do
            let h ← destinationHash f em
            pure (toString h ++ "-")
        | none => none
    | _ => pure ""
  let ssc ← match lookupA m "source_selection_criteria" with
    | some (.set (some em :: _)) => do
        let h ← sourceSelectionCriteriaHash f (some em)
        pure (toString h ++ "-")
    | _ => pure ""
  let pr ← goIntField m "priority"
  let fl ← match lookupA m "filter" with
    | some (.list (some em :: _)) => do
        let h ← replicationRuleFilterHash f em
        pure (toString h ++ "-")
    | _ => pure ""
  pure (i ++ p ++ s ++ d ++ ssc ++ pr ++ fl)

/-- `rulesHash` (source lines 2367-2393), digest step abstract. -/
def rulesHash (f : String → Int) (m : AttrMap) : Option Int :=
  (rulesHashString f m).map f

example : expirationHash (fun s => (s.length : Int))
    [("date", .str "2020-01-01"), ("days", .int 0)] = some 13 := by decide

/-! ## Bucket name validation: `validateS3BucketName` (source lines 2306-2335)

The two Go regular expressions are anchored character-class matches
(one-or-more characters of the class); the IP-shape regular expression
matches exactly four dot-separated groups of one to three digits. -/

/-- Character class of the regular expression [0-9a-z-.] (outside us-east-1). -/
def isDnsBucketChar (c : Char) : Bool :=
  (('0' ≤ c && c ≤ '9') || ('a' ≤ c && c ≤ 'z') || c = '-' || c = '.')

/-- Character class of the regular expression [0-9a-zA-Z-._] (us-east-1). -/
def isEastBucketChar (c : Char) : Bool :=
  (('0' ≤ c && c ≤ '9') || ('a' ≤ c && c ≤ 'z') || ('A' ≤ c && c ≤ 'Z') ||
    c = '-' || c = '.' || c = '_')

/-- Anchored match of [class]+ : one or more characters, all in the class. -/
def matchesClassPlus (cls : Char → Bool) (s : String) : Bool :=
  !s.data.isEmpty && s.data.all cls

/-- Splitting a character list at '.' (semantics of splitting a string on "."). -/
def splitOnDot (cs : List Char) : List (List Char) :=
  cs.foldr
    (fun c acc =>
      if c = '.' then [] :: acc
      else
        match acc with
        | g :: gs => (c :: g) :: gs
        | [] => [[c]])
    [[]]

/-- One IPv4 group of the regular expression: [0-9]\x7b1,3\x7d. -/
def isIpGroup (g : List Char) : Bool :=
  decide (1 ≤ g.length) && decide (g.length ≤ 3) && g.all (fun c => '0' ≤ c && c ≤ '9')

/-- Anchored match of the IP-shape regular expression of the source:
exactly four dot-separated groups of one to three digits. -/
def isIpAddressShaped (s : String) : Bool :=
  match splitOnDot s.data with
  | [a, b, c, d] => isIpGroup a && isIpGroup b && isIpGroup c && isIpGroup d
  | _ => false

/-- strings.HasPrefix(value, ".") on the character list. -/
def startsWithPeriod (s : String) : Bool :=
  match s.data with
  | c :: _ => c = '.'
  | [] => false

/-- strings.HasSuffix(value, ".") on the character list. -/
def endsWithPeriod (s : String) : Bool :=
  match s.data.getLast? with
  | some c => c = '.'
  | none => false

/-- strings.Contains(value, "..") on the character list. -/
def containsDoublePeriod : List Char → Bool
  | '.' :: '.' :: _ => true
  | _ :: rest => containsDoublePeriod rest
  | [] => false

/-- `validateS3BucketName` (source lines 2306-2335).  Returns the error message
(`some`) or acceptance (`none`).  Lengths are character counts (see the module
comment: identical acceptance behaviour to Go's byte counts on these ASCIIized
character classes). -/
def validateS3BucketName (value region : String) : Option String :=
  if region ≠ "us-east-1" then
    if value.length < 3 || value.length > 63 then
      some (value ++ " must contain from 3 to 63 characters")
    else if !matchesClassPlus isDnsBucketChar value then
      some ("only lowercase alphanumeric characters and hyphens allowed in " ++ value)
    else if isIpAddressShaped value then
      some (value ++ " must not be formatted as an IP address")
    else if startsWithPeriod value then
      some (value ++ " cannot start with a period")
    else if endsWithPeriod value then
      some (value ++ " cannot end with a period")
    else if containsDoublePeriod value.data then
      some (value ++ " can be only one period between labels")
    else
      none
  else
    if value.length > 255 then
      some (value ++ " must contain less than 256 characters")
    else if !matchesClassPlus isEastBucketChar value then
      some ("only alphanumeric characters, hyphens, periods, and underscores allowed in " ++ value)
    else
      none

/-- The claim's acceptance predicate outside the home region, written from the
spec's words: 3-63 characters of lowercase alphanumerics, hyphens and periods,
not shaped like an IPv4 address, no leading/trailing period, no consecutive
periods.  (For a refinement comparison with `validateS3BucketName`.) -/
def specAcceptsOutsideHome (s : String) : Bool :=
  decide (3 ≤ s.length) && decide (s.length ≤ 63) && s.data.all isDnsBucketChar &&
    !isIpAddressShaped s && !startsWithPeriod s && !endsWithPeriod s &&
    !containsDoublePeriod s.data

/-- The claim's acceptance predicate inside the home region, written from the
spec's words: at most 255 characters drawn from alphanumerics (either case),
hyphens, periods and underscores. -/
def specAcceptsInsideHome (s : String) : Bool :=
  decide (s.length ≤ 255) && s.data.all isEastBucketChar

/-- A 200-character name containing underscores (100 letters then 100
underscores), used by the claim's concrete examples. -/
def underscoreName200 : String :=
  String.mk (List.replicate 100 'a' ++ List.replicate 100 '_')

example : validateS3BucketName "ab" "us-west-2" ≠ none := by decide
example : validateS3BucketName "192.168.1.1" "us-west-2" ≠ none := by decide
example : validateS3BucketName "foo..bar" "us-west-2" ≠ none := by decide
example : validateS3BucketName "foo.bar" "us-west-2" = none := by decide
example : validateS3BucketName "" "us-east-1" ≠ none := by decide
example : specAcceptsInsideHome "" = true := by decide

/-! ## Recursive bucket destroy: `resourceAwsS3BucketDelete` (source lines 1245-1317)

The remote control plane is modelled explicitly, in the regime the claims fix:
DeleteBucket fails with NoSuchBucket on an absent bucket and with
BucketNotEmpty on a bucket still holding object versions or delete markers;
ListObjectVersions returns every version and delete marker; DeleteObjects
removes exactly the listed identifiers.  Injected failures of the listing and
batch-delete operations are carried in the remote state so the error-path
clauses can be stated. -/

/-- An object version identifier (Key and VersionId), as listed by
ListObjectVersions and batched into DeleteObjects. -/
structure ObjVersion where
  key : String
  versionId : String
deriving Repr, DecidableEq

/-- AWS error codes distinguished by the delete path. -/
inductive S3Err where
  | noSuchBucket
  | bucketNotEmpty
  | other (msg : String)
deriving Repr, DecidableEq

/-- Rendering of an error into the message text wrapped by the source. -/
def S3Err.text : S3Err → String
  | .noSuchBucket => "NoSuchBucket"
  | .bucketNotEmpty => "BucketNotEmpty"
  | .other msg => msg

/-- The remote bucket state seen by the delete path. -/
structure RemoteBucket where
  bucketPresent : Bool
  deleteMarkers : List ObjVersion
  versions : List ObjVersion
  listErr : Option String
  deleteObjectsErr : Option String
deriving Repr, DecidableEq

/-- Number of object versions plus delete markers still in the bucket. -/
def RemoteBucket.objectCount (r : RemoteBucket) : Nat :=
  r.deleteMarkers.length + r.versions.length

/-- Remote DeleteBucket: NoSuchBucket on an absent bucket, BucketNotEmpty on a
non-empty one, success otherwise. -/
def deleteBucketOp (r : RemoteBucket) : Except S3Err Unit :=
  if r.bucketPresent = false then .error .noSuchBucket
  else if r.objectCount ≠ 0 then .error .bucketNotEmpty
  else .ok ()

/-- The remote API calls the delete path can issue, in issue order. -/
inductive S3ApiCall where
  | deleteBucket
  | listObjectVersions
  | deleteObjects (objs : List ObjVersion)
deriving Repr, DecidableEq

/-- `resourceAwsS3BucketDelete` (source lines 1245-1317): plain delete; treat
NoSuchBucket as success; on BucketNotEmpty with force_destroy, list all
versions and delete markers, issue one batched delete for all of them (delete
markers first, then versions, as the source appends them), then recurse; any
other error is wrapped and returned.  The result carries the outcome, the
final remote state, and the trace of issued API calls. -/
def resourceAwsS3BucketDelete (forceDestroy : Bool) (r : RemoteBucket) :
    Except String Unit × RemoteBucket × List S3ApiCall :=
  match h : deleteBucketOp r with
  | .ok () => (.ok (), { r with bucketPresent := false }, [.deleteBucket])
  | .error .noSuchBucket => (.ok (), r, [.deleteBucket])
  | .error .bucketNotEmpty =>
    if forceDestroy then
      match r.listErr with
      | some e =>
          (.error ("Error S3 Bucket list Object Versions err: " ++ e), r,
            [.deleteBucket, .listObjectVersions])
      | none =>
        let objectsToDelete := r.deleteMarkers ++ r.versions
        match r.deleteObjectsErr with
        | some e =>
            (.error ("Error S3 Bucket force_destroy error deleting: " ++ e), r,
              [.deleteBucket, .listObjectVersions, .deleteObjects objectsToDelete])
        | none =>
          let r2 := { r with deleteMarkers := [], versions := [] }
          let rec2 := resourceAwsS3BucketDelete forceDestroy r2
          (rec2.1, rec2.2.1,
            .deleteBucket :: .listObjectVersions :: .deleteObjects objectsToDelete :: rec2.2.2)
    else
      (.error ("error deleting S3 Bucket: " ++ S3Err.text .bucketNotEmpty), r, [.deleteBucket])
  | .error (.other e) =>
      (.error ("error deleting S3 Bucket: " ++ e), r, [.deleteBucket])
termination_by r.objectCount
decreasing_by
  unfold deleteBucketOp at h
  split at h
  · simp at h
  · split at h
    · simp_all [RemoteBucket.objectCount]
      by_cases hd : r.deleteMarkers = []
      · right
        simp_all [List.length_pos]
      · left
        simp_all [List.length_pos]
    · simp at h

/-! ## Replication configuration update:
`resourceAwsS3BucketReplicationConfigurationUpdate` (source lines 1839-1986)

Desired-state input records follow the schema declaration (source lines
340-496); `schema.Set`/`schema.TypeList` blocks with MaxItems 1 are lists
whose head, when present, is the configured block.  The schema field named
"prefix" is rendered here as the field `pfx`. -/

/-- The `versioning` facet value (schema fields enabled / mfa_delete). -/
structure VersioningIn where
  enabled : Bool
  mfa_delete : Bool
deriving Repr, DecidableEq

/-- sse_kms_encrypted_objects block. -/
structure SseKmsIn where
  enabled : Bool
deriving Repr, DecidableEq

/-- source_selection_criteria block. -/
structure SourceSelectionCriteriaIn where
  sse_kms_encrypted_objects : List SseKmsIn
deriving Repr, DecidableEq

/-- access_control_translation block. -/
structure AccessControlTranslationIn where
  owner : String
deriving Repr, DecidableEq

/-- replication rule destination block (schema lines 377-431). -/
structure DestinationIn where
  account_id : String
  bucket : String
  storage_class : String
  replica_kms_key_id : String
  access_control_translation : List AccessControlTranslationIn
deriving Repr, DecidableEq

/-- replication rule filter block (schema lines 475-490); `pfx` is the schema
field "prefix". -/
structure ReplRuleFilterIn where
  pfx : String
  tags : List (String × String)
deriving Repr, DecidableEq

/-- One replication rule (schema lines 370-491); `pfx` is the schema field
"prefix"; the filter TypeList entry may be nil. -/
structure ReplRuleIn where
  id : String
  status : String
  pfx : String
  priority : Int
  destination : List DestinationIn
  source_selection_criteria : List SourceSelectionCriteriaIn
  filter : List (Option ReplRuleFilterIn)
deriving Repr, DecidableEq

/-- The replication_configuration facet value (role + rule set). -/
structure ReplConfigIn where
  role : String
  rules : List ReplRuleIn
deriving Repr, DecidableEq

/-- s3.EncryptionConfiguration of the put request. -/
structure S3EncryptionConfiguration where
  replicaKmsKeyID : String
deriving Repr, DecidableEq

/-- s3.AccessControlTranslation of the put request. -/
structure S3AccessControlTranslation where
  owner : String
deriving Repr, DecidableEq

/-- s3.Destination of the put request. -/
structure S3Destination where
  bucket : Option String
  storageClass : Option String
  encryptionConfiguration : Option S3EncryptionConfiguration
  account : Option String
  accessControlTranslation : Option S3AccessControlTranslation
deriving Repr, DecidableEq

/-- s3.SseKmsEncryptedObjects of the put request. -/
structure S3SseKmsEncryptedObjects where
  status : String
deriving Repr, DecidableEq

/-- s3.SourceSelectionCriteria of the put request. -/
structure S3SourceSelectionCriteria where
  sseKmsEncryptedObjects : Option S3SseKmsEncryptedObjects
deriving Repr, DecidableEq

/-- s3.ReplicationRuleAndOperator; `pfx` is the wire field Prefix. -/
structure S3ReplicationRuleAndOperator where
  pfx : String
  tags : List (String × String)
deriving Repr, DecidableEq

/-- s3.ReplicationRuleFilter; `pfx` is the wire field Prefix. -/
structure S3ReplicationRuleFilter where
  pfx : Option String
  andOp : Option S3ReplicationRuleAndOperator
deriving Repr, DecidableEq

/-- s3.DeleteMarkerReplication of the put request. -/
structure S3DeleteMarkerReplication where
  status : String
deriving Repr, DecidableEq

/-- s3.ReplicationRule of the put request; `pfx` is the wire field Prefix
(XML schema V1). -/
structure S3ReplicationRule where
  status : Option String
  id : Option String
  destination : S3Destination
  sourceSelectionCriteria : Option S3SourceSelectionCriteria
  priority : Option Int
  filter : Option S3ReplicationRuleFilter
  deleteMarkerReplication : Option S3DeleteMarkerReplication
  pfx : Option String
deriving Repr, DecidableEq

/-- s3.ReplicationConfiguration of the put request. -/
structure S3ReplicationConfiguration where
  role : Option String
  rules : List S3ReplicationRule
deriving Repr, DecidableEq

/-- Destination block expansion (source lines 1891-1917): fields are set only
inside the dest.Len() > 0 branch; empty optional strings are skipped. -/
def expandReplicationDestination (dest : List DestinationIn) : S3Destination :=
  match dest with
  | [] => { bucket := none, storageClass := none, encryptionConfiguration := none,
            account := none, accessControlTranslation := none }
  | bd :: _ =>
    { bucket := some bd.bucket
      storageClass := if bd.storage_class ≠ "" then some bd.storage_class else none
      encryptionConfiguration :=
        if bd.replica_kms_key_id ≠ "" then some { replicaKmsKeyID := bd.replica_kms_key_id }
        else none
      account := if bd.account_id ≠ "" then some bd.account_id else none
      accessControlTranslation :=
        match bd.access_control_translation with
        | [] => none
        | a :: _ => some { owner := a.owner } }

/-- source_selection_criteria expansion (source lines 1920-1934). -/
def expandReplicationSSC (l : List SourceSelectionCriteriaIn) :
    Option S3SourceSelectionCriteria :=
  match l with
  | [] => none
  | s :: _ =>
    some { sseKmsEncryptedObjects :=
      match s.sse_kms_encrypted_objects with
      | [] => none
      | k :: _ => some { status := if k.enabled then "Enabled" else "Disabled" } }

/-- One rule of the replication put request (source loop body, lines
1878-1958).  A rule whose status is empty is skipped (the `continue`),
hence `none`.  A present non-nil filter block selects XML schema V2 (explicit
priority, filter, delete-marker replication disabled); otherwise the legacy V1
schema (bare prefix) is used. -/
def expandReplicationRule (rr : ReplRuleIn) : Option S3ReplicationRule :=
  if rr.status = "" then none
  else
    let base : S3ReplicationRule :=
      { status := some rr.status
        id := if rr.id ≠ "" then some rr.id else none
        destination := expandReplicationDestination rr.destination
        sourceSelectionCriteria := expandReplicationSSC rr.source_selection_criteria
        priority := none, filter := none, deleteMarkerReplication := none, pfx := none }
    match rr.filter with
    | some flt :: _ =>
      some { base with
        priority := some rr.priority
        filter := some (if flt.tags.length > 0 then
            { pfx := none, andOp := some { pfx := flt.pfx, tags := flt.tags } }
          else
            { pfx := some flt.pfx, andOp := none })
        deleteMarkerReplication := some { status := "Disabled" } }
    | _ => some { base with pfx := some rr.pfx }

/-- Remote calls issued by the replication synchronizer. -/
inductive ReplApiCall where
  | deleteBucketReplication
  | putBucketReplication (cfg : S3ReplicationConfiguration)
deriving Repr, DecidableEq

/-- `resourceAwsS3BucketReplicationConfigurationUpdate` (source lines
1839-1986).  `remote` yields the effective outcome of a remote call (the
1-minute retry wrapper around PutBucketReplication collapses to its final
outcome).  An empty desired value deletes the remote configuration; a
non-empty one requires versioning to be enabled (the `GetOk` lookup reports
the facet absent on an empty list) before the put request is built and
issued.  Returns the outcome and the list of remote calls made. -/
def resourceAwsS3BucketReplicationConfigurationUpdate
    (remote : ReplApiCall → Except String Unit)
    (replicationConfiguration : List ReplConfigIn)
    (versioning : List VersioningIn) :
    Except String Unit × List ReplApiCall :=
  match replicationConfiguration with
  | [] =>
    match remote .deleteBucketReplication with
    | .error e =>
        (.error ("Error removing S3 bucket replication: " ++ e), [.deleteBucketReplication])
    | .ok () => (.ok (), [.deleteBucketReplication])
  | c :: _ =>
    let hasVersioning :=
      match versioning with
      | [] => false
      | v :: _ => v.enabled
    if !hasVersioning then
      (.error "versioning must be enabled to allow S3 bucket replication", [])
    else
      let rc : S3ReplicationConfiguration :=
        { role := some c.role
          rules := c.rules.filterMap expandReplicationRule }
      match remote (.putBucketReplication rc) with
      | .error e =>
          (.error ("Error putting S3 replication configuration: " ++ e),
            [.putBucketReplication rc])
      | .ok () => (.ok (), [.putBucketReplication rc])

/-! ## Generic update pass: `resourceAwsS3BucketUpdate` (source lines 677-755)

The dispatcher consults HasChange per facet key and invokes that facet's
synchronizer; the acl synchronizer is additionally guarded by
!IsNewResource().  Create (source line 674) ends by invoking this update pass
on the freshly-created resource, for which the SDK reports IsNewResource() as
true.  setTagsS3 runs first unconditionally; the trailing read pass is outside
this model.  A synchronizer error aborts the remaining steps. -/

/-- The dispatcher's inputs: whether this pass was triggered by creation,
which facet keys report a change, and each facet synchronizer's outcome. -/
structure UpdateCtx where
  isNewResource : Bool
  hasChange : String → Bool
  sync : String → Except String Unit

/-- The guarded step list of `resourceAwsS3BucketUpdate`, in source order
(source lines 679-752). -/
def updateStepList (ctx : UpdateCtx) : List (String × Bool) :=
  [("tags", true),
   ("policy", ctx.hasChange "policy"),
   ("cors_rule", ctx.hasChange "cors_rule"),
   ("website", ctx.hasChange "website"),
   ("versioning", ctx.hasChange "versioning"),
   ("acl", ctx.hasChange "acl" && !ctx.isNewResource),
   ("logging", ctx.hasChange "logging"),
   ("lifecycle_rule", ctx.hasChange "lifecycle_rule"),
   ("acceleration_status", ctx.hasChange "acceleration_status"),
   ("request_payer", ctx.hasChange "request_payer"),
   ("replication_configuration", ctx.hasChange "replication_configuration"),
   ("server_side_encryption_configuration",
     ctx.hasChange "server_side_encryption_configuration"),
   ("object_lock_configuration", ctx.hasChange "object_lock_configuration")]

/-- Run the guarded steps in order, stopping at the first synchronizer error;
returns the outcome and the names of the synchronizers invoked. -/
def runUpdateSteps (sync : String → Except String Unit) :
    List (String × Bool) → Except String Unit × List String
  | [] => (.ok (), [])
  | (name, cond) :: rest =>
    if cond then
      match sync name with
      | .error e => (.error e, [name])
      | .ok () =>
        let next := runUpdateSteps sync rest
        (next.1, name :: next.2)
    else runUpdateSteps sync rest

/-- `resourceAwsS3BucketUpdate` (source lines 677-755) as a dispatcher over
the guarded step list. -/
def resourceAwsS3BucketUpdate (ctx : UpdateCtx) : Except String Unit × List String :=
  runUpdateSteps ctx.sync (updateStepList ctx)

/-! ## Website facet put: `resourceAwsS3BucketWebsitePut` (source lines 1445-1517)

Go's `net/url.Parse` and `json.Unmarshal` are external library collaborators,
passed in as the parse functions `urlParse` (`none` models a parse error) and
`jsonRules`.  The function yields the PutBucketWebsite request it issues, or
the validation/parse error that prevents it. -/

/-- The components of a parsed Go URL used by the source. -/
structure GoURL where
  scheme : String
  host : String
  path : String
  rawQuery : String
deriving Repr, DecidableEq

/-- The website facet value (schema fields). -/
structure WebsiteIn where
  index_document : String
  error_document : String
  redirect_all_requests_to : String
  routing_rules : String
deriving Repr, DecidableEq

/-- An s3.RoutingRule as produced by json.Unmarshal (opaque to this model). -/
structure RoutingRule where
  raw : String
deriving Repr, DecidableEq

/-- s3.RedirectAllRequestsTo of the put request. -/
structure S3RedirectAllRequestsTo where
  hostName : String
  protocol : Option String
deriving Repr, DecidableEq

/-- s3.WebsiteConfiguration of the put request. -/
structure S3WebsiteConfiguration where
  indexDocumentSuffix : Option String
  errorDocumentKey : Option String
  redirectAllRequestsTo : Option S3RedirectAllRequestsTo
  routingRules : Option (List RoutingRule)
deriving Repr, DecidableEq

/-- s3.PutBucketWebsiteInput. -/
structure S3PutBucketWebsiteInput where
  bucket : String
  websiteConfiguration : S3WebsiteConfiguration
deriving Repr, DecidableEq

/-- `resourceAwsS3BucketWebsitePut` (source lines 1445-1517). -/
def resourceAwsS3BucketWebsitePut
    (urlParse : String → Option GoURL)
    (jsonRules : String → Option (List RoutingRule))
    (bucket : String) (w : WebsiteIn) :
    Except String S3PutBucketWebsiteInput :=
  let indexDocument := w.index_document
  let errorDocument := w.error_document
  let redirectAllRequestsTo := w.redirect_all_requests_to
  let routingRules := w.routing_rules
  if indexDocument = "" && redirectAllRequestsTo = "" then
    .error "Must specify either index_document or redirect_all_requests_to."
  else
    let cfg0 : S3WebsiteConfiguration :=
      { indexDocumentSuffix := if indexDocument ≠ "" then some indexDocument else none
        errorDocumentKey := if errorDocument ≠ "" then some errorDocument else none
        redirectAllRequestsTo := none
        routingRules := none }
    let bareRedirect : S3RedirectAllRequestsTo :=
      { hostName := redirectAllRequestsTo, protocol := none }
    let cfg1 :=
      if redirectAllRequestsTo ≠ "" then
        match urlParse redirectAllRequestsTo with
        | some u =>
          if u.scheme ≠ "" then
            let host := u.host ++ (if u.path ≠ "" then u.path else "") ++
              (if u.rawQuery ≠ "" then "?" ++ u.rawQuery else "")
            let redir : S3RedirectAllRequestsTo :=
              { hostName := host, protocol := some u.scheme }
            { cfg0 with redirectAllRequestsTo := some redir }
          else
            { cfg0 with redirectAllRequestsTo := some bareRedirect }
        | none =>
          { cfg0 with redirectAllRequestsTo := some bareRedirect }
      else cfg0
    if routingRules ≠ "" then
      match jsonRules routingRules with
      | none => .error "error unmarshaling routing rules"
      | some rr => .ok { bucket := bucket, websiteConfiguration := { cfg1 with routingRules := some rr } }
    else
      .ok { bucket := bucket, websiteConfiguration := cfg1 }

/-! ## Lifecycle rule encoding: `resourceAwsS3BucketLifecycleUpdate`
(source lines 2007-2037: the filter, ID and status parts of the rule-building
loop; the expiration/transition blocks are outside the claims addressed here).
`resource.PrefixedUniqueId` is an external helper producing the given prefix
followed by a generated unique suffix; the suffix is passed in as
`uniqueSuffix`. -/

/-- One lifecycle rule's inputs used by the filter/ID/status encoding; `pfx`
is the schema field "prefix". -/
structure LifecycleRuleIn where
  id : String
  pfx : String
  tags : List (String × String)
  enabled : Bool
deriving Repr, DecidableEq

/-- The encoded s3.LifecycleRuleFilter: a compound AND of prefix and tags, or
a bare prefix. -/
inductive S3LifecycleRuleFilter where
  | andOp (pfx : String) (tags : List (String × String))
  | pfxOnly (pfx : String)
deriving Repr, DecidableEq

/-- The filter/ID/status part of the encoded s3.LifecycleRule. -/
structure S3LifecycleRuleHead where
  filter : S3LifecycleRuleFilter
  id : String
  status : String
deriving Repr, DecidableEq

/-- resource.PrefixedUniqueId("tf-s3-lifecycle-"): the fixed prefix followed
by the generated unique suffix. -/
def genLifecycleRuleId (uniqueSuffix : String) : String :=
  "tf-s3-lifecycle-" ++ uniqueSuffix

/-- Filter, ID and status encoding of one lifecycle rule (source lines
2010-2037): non-empty tags select the compound AND filter over prefix and
tags, otherwise a bare prefix filter; a caller-supplied non-empty id is used
unchanged, otherwise a generated id with the fixed prefix is assigned. -/
def encodeLifecycleRuleHead (uniqueSuffix : String) (r : LifecycleRuleIn) :
    S3LifecycleRuleHead :=
  { filter :=
      if r.tags.length > 0 then .andOp r.pfx r.tags else .pfxOnly r.pfx
    id := if r.id ≠ "" then r.id else genLifecycleRuleId uniqueSuffix
    status := if r.enabled then "Enabled" else "Disabled" }

/-! ## Object lock configuration (schema lines 538-597, create lines 643-647,
update lines 1822-1837, expansion lines 2491-2527) -/

/-- default_retention block. -/
structure DefaultRetentionIn where
  mode : String
  days : Int
  years : Int
deriving Repr, DecidableEq

/-- object-lock rule block; the default_retention TypeList entry may be nil. -/
structure ObjectLockRuleIn where
  default_retention : List (Option DefaultRetentionIn)
deriving Repr, DecidableEq

/-- The object_lock_configuration facet value (a TypeList entry may be nil). -/
structure ObjectLockConfigIn where
  object_lock_enabled : String
  rule : List ObjectLockRuleIn
deriving Repr, DecidableEq

/-- s3.DefaultRetention. -/
structure S3DefaultRetention where
  mode : Option String
  days : Option Int
  years : Option Int
deriving Repr, DecidableEq

/-- s3.ObjectLockConfiguration (the rule holds only a DefaultRetention). -/
structure S3ObjectLockConfiguration where
  objectLockEnabled : Option String
  ruleDefaultRetention : Option S3DefaultRetention
deriving Repr, DecidableEq

/-- `expandS3ObjectLockConfiguration` (source lines 2491-2527). -/
def expandS3ObjectLockConfiguration :
    List (Option ObjectLockConfigIn) → Option S3ObjectLockConfiguration
  | [] => none
  | none :: _ => none
  | some mConf :: _ =>
    some
      { objectLockEnabled :=
          if mConf.object_lock_enabled ≠ "" then some mConf.object_lock_enabled else none
        ruleDefaultRetention :=
          match mConf.rule with
          | [] => none
          | r :: _ =>
            match r.default_retention with
            | some dr :: _ =>
              some { mode := if dr.mode ≠ "" then some dr.mode else none
                     days := if dr.days > 0 then some dr.days else none
                     years := if dr.years > 0 then some dr.years else none }
            | _ => none }

/-- The ValidateFunc declared on the schema field object_lock_enabled
(schema lines 544-551): validation.StringInSlice with the single admissible
value s3.ObjectLockEnabledEnabled. -/
def validateObjectLockEnabled (s : String) : Bool :=
  ["Enabled"].contains s

/-- The enable flag carried by a desired object-lock facet value ("" when the
block is absent or nil). -/
def objectLockFlagOf : List (Option ObjectLockConfigIn) → String
  | some m :: _ => m.object_lock_enabled
  | _ => ""

/-- Whether `resourceAwsS3BucketCreate` (source lines 643-647) passes the
creation-time ObjectLockEnabledForBucket flag on the CreateBucket request:
the expanded configuration is non-nil and its enable flag reads "Enabled"
(aws.StringValue maps a nil pointer to ""). -/
def createObjectLockEnabledForBucket (cfg : List (Option ObjectLockConfigIn)) : Bool :=
  match expandS3ObjectLockConfiguration cfg with
  | none => false
  | some conf => conf.objectLockEnabled.getD "" == "Enabled"

/-- Modelled from the spec: the schema/validation layer that turns raw
configuration into the desired-state model is an external collaborator (spec
section 1/6) and is not part of this source file.  Per the spec it runs every
declared ValidateFunc pre-flight, before any remote API call, and a field
declared ForceNew — here object_lock_enabled (schema line 547) — admits no
in-place update: a desired change is dispatched to the update path only when
each configured value passes its ValidateFunc and the ForceNew-marked enable
flag is unchanged from the prior state.  A change failing either check is
rejected before any remote call. -/
def objectLockChangeDispatchable (oldFlag : String)
    (newCfg : List (Option ObjectLockConfigIn)) : Bool :=
  newCfg.all (fun c =>
      match c with
      | none => true
      | some m => validateObjectLockEnabled m.object_lock_enabled)
    && (objectLockFlagOf newCfg == oldFlag)

/-- Remote call of the object-lock synchronizer. -/
inductive ObjectLockApiCall where
  | putObjectLockConfiguration (cfg : Option S3ObjectLockConfiguration)
deriving Repr, DecidableEq

/-- `resourceAwsS3BucketObjectLockConfigurationUpdate` (source lines
1822-1837): the in-place update itself performs no enable-flag check — it
puts the expanded configuration (guarding the flag is the validation layer's
job, see `objectLockChangeDispatchable`). -/
def resourceAwsS3BucketObjectLockConfigurationUpdate
    (remote : ObjectLockApiCall → Except String Unit)
    (cfg : List (Option ObjectLockConfigIn)) :
    Except String Unit × List ObjectLockApiCall :=
  let req := expandS3ObjectLockConfiguration cfg
  match remote (.putObjectLockConfiguration req) with
  | .error e =>
      (.error ("error putting S3 object lock configuration: " ++ e),
        [.putObjectLockConfiguration req])
  | .ok () => (.ok (), [.putObjectLockConfiguration req])

/-- Schema-shaped replication destination record (schema lines 377-431),
rendered to the attribute map handed to `destinationHash` by the set
implementation: the map's keys are the schema attribute names, in particular
"account_id" (not "account"). -/
def DestinationIn.toAttrMap (d : DestinationIn) : AttrMap :=
  [("account_id", .str d.account_id),
   ("bucket", .str d.bucket),
   ("storage_class", .str d.storage_class),
   ("replica_kms_key_id", .str d.replica_kms_key_id),
   ("access_control_translation",
     .list (d.access_control_translation.map (fun a => some [("owner", .str a.owner)])))]

/-! # Theorems -/

/-! ## C9 / C10: fingerprint determinism and the account_id field -/

/-- C9: Every fingerprint function used for the order-insensitive collections
(expiration, transition, replication-rule and destination hashes) is pure and
deterministic: any two records with equal corresponding fields — i.e. maps
that agree on every key lookup, however their bindings were ordered — produce
equal digests, for every digest function; and permuting a tag map's entries
(sub-items supplied in a different order) leaves the replication filter's tag
digest unchanged.  The digest is built from the fields concatenated in the
fixed declared order (the definitions of the canonical strings). -/
theorem C9_fingerprint_deterministic (f : String → Int) (m1 m2 : AttrMap)
    (h : ∀ k, lookupA m1 k = lookupA m2 k) :
    expirationHash f m1 = expirationHash f m2 ∧
    transitionHash f m1 = transitionHash f m2 ∧
    rulesHash f m1 = rulesHash f m2 ∧
    destinationHash f m1 = destinationHash f m2 ∧
    ∀ (tm1 tm2 : List (String × String)), tm1.Perm tm2 →
      tagsMapToHash f tm1 = tagsMapToHash f tm2 := by
  refine ⟨?_, ?_, ?_, ?_, ?_⟩
  · simp only [expirationHash, expirationHashString, goStrField, goIntField, goBoolField, h]
  · simp only [transitionHash, transitionHashString, goStrField, goIntField, goBoolField, h]
  · simp only [rulesHash, rulesHashString, goStrField, goIntField, goBoolField, h]
  · simp only [destinationHash, destinationHashString, goStrField, goIntField, goBoolField, h]
  · intro tm1 tm2 hp
    simp only [tagsMapToHash]
    exact List.Perm.sum_eq (hp.map _)

/-- Witness for C9 at concrete inputs: the same two fields bound in the two
possible orders, and a two-entry tag map permuted. -/
theorem C9_witness :
    expirationHash (fun s => (s.length : Int)) [("date", Attr.str "d"), ("days", Attr.int 1)] =
      expirationHash (fun s => (s.length : Int)) [("days", Attr.int 1), ("date", Attr.str "d")] ∧
    tagsMapToHash (fun s => (s.length : Int)) [("a", "b"), ("c", "d")] =
      tagsMapToHash (fun s => (s.length : Int)) [("c", "d"), ("a", "b")] := by
  have h := C9_fingerprint_deterministic (fun s => (s.length : Int))
    [("date", Attr.str "d"), ("days", Attr.int 1)]
    [("days", Attr.int 1), ("date", Attr.str "d")]
    (by
      intro k
      by_cases h1 : "date" = k
      · subst h1
        simp [lookupA]
      · by_cases h2 : "days" = k
        · subst h2
          simp [lookupA]
        · simp [lookupA, h1, h2])
  exact ⟨h.1, h.2.2.2.2 _ _ (List.Perm.swap ("c", "d") ("a", "b") [])⟩

/-- C10: `destinationHash` reads the key "account" while the schema names the
attribute "account_id", so the account_id value never reaches the digest: two
schema-shaped destination records that differ only in account_id fingerprint
identically (for every digest function — even their canonical strings are
equal). -/
theorem C10_destinationHash_ignores_account_id (f : String → Int) (d1 d2 : DestinationIn)
    (hb : d1.bucket = d2.bucket) (hs : d1.storage_class = d2.storage_class)
    (hr : d1.replica_kms_key_id = d2.replica_kms_key_id)
    (ha : d1.access_control_translation = d2.access_control_translation) :
    destinationHash f d1.toAttrMap = destinationHash f d2.toAttrMap := by
  simp [destinationHash, destinationHashString, goStrField, DestinationIn.toAttrMap,
    lookupA, accessControlTranslationHash, accessControlTranslationHashString,
    hb, hs, hr, ha]

/-- Witness for C10: two destinations equal except for account_id ("111" vs
"222") hash identically. -/
theorem C10_witness :
    destinationHash (fun s => (s.length : Int))
      (DestinationIn.mk "111" "arn:aws:s3:::dest" "STANDARD" "" []).toAttrMap =
    destinationHash (fun s => (s.length : Int))
      (DestinationIn.mk "222" "arn:aws:s3:::dest" "STANDARD" "" []).toAttrMap :=
  C10_destinationHash_ignores_account_id (fun s => (s.length : Int))
    (DestinationIn.mk "111" "arn:aws:s3:::dest" "STANDARD" "" [])
    (DestinationIn.mk "222" "arn:aws:s3:::dest" "STANDARD" "" [])
    rfl rfl rfl rfl

/-! ## C3: bucket name validation -/

/-- C3 counterexample: the empty name inside the home region.  The claim's
inside-home-region acceptance condition ("at most 255 characters drawn from
the class") holds vacuously for "", yet `validateS3BucketName` rejects it (the
anchored one-or-more character-class pattern does not match the empty
string), so the claimed equivalence fails at this input. -/
theorem C3_counterexample_empty_name :
    ¬ ((validateS3BucketName "" "us-east-1" = none) ↔ specAcceptsInsideHome "" = true) := by
  decide

set_option maxRecDepth 8192 in
/-- C3 (amended): outside the home region (us-east-1) a name is accepted iff
it is 3-63 characters of lowercase alphanumerics, hyphens and periods, not
shaped like an IPv4 address, does not start or end with a period and has no
consecutive periods; inside the home region it is accepted iff it is
NON-EMPTY and at most 255 characters drawn from alphanumerics of either case,
hyphens, periods and underscores (the non-emptiness is what the
counterexample forces).  In particular "ab" and "192.168.1.1" are rejected
outside the home region, and a 200-character name containing underscores is
accepted inside the home region but rejected outside it. -/
theorem C3_name_validation_amended :
    (∀ value region, region ≠ "us-east-1" →
      ((validateS3BucketName value region = none) ↔ specAcceptsOutsideHome value = true)) ∧
    (∀ value, (validateS3BucketName value "us-east-1" = none) ↔
      (value ≠ "" ∧ specAcceptsInsideHome value = true)) ∧
    validateS3BucketName "ab" "us-west-2" ≠ none ∧
    validateS3BucketName "192.168.1.1" "us-west-2" ≠ none ∧
    validateS3BucketName underscoreName200 "us-east-1" = none ∧
    validateS3BucketName underscoreName200 "us-west-2" ≠ none := by
  refine ⟨?_, ?_, by decide, by decide, by decide, by decide⟩
  · intro value region hreg
    simp only [validateS3BucketName, specAcceptsOutsideHome, matchesClassPlus, if_pos hreg]
    split_ifs with h1 h2 h3 h4 h5 h6
    · simp_all
      omega
    · simp_all
      intro hall hip hst hen
      rcases h2 with h2 | ⟨x, hx, hbad⟩
      · have hl : value.length = value.data.length := rfl
        rw [h2] at hl
        simp at hl
        omega
      · rw [hall x hx] at hbad
        cases hbad
    · simp_all
    · simp_all
    · simp_all
    · simp_all
    · simp_all
  · intro value
    have hext : value = "" ↔ value.data = [] := by
      constructor
      · intro h
        subst h
        rfl
      · intro h
        cases value
        simp_all
    simp only [validateS3BucketName, specAcceptsInsideHome, matchesClassPlus,
      if_neg (by simp : ¬("us-east-1" : String) ≠ "us-east-1")]
    split_ifs with h1 h2
    · simp_all
    · simp_all
      intro hne
      rcases h2 with h2 | ⟨x, hx, hbad⟩
      · exact absurd h2 hne
      · exact ⟨x, hx, hbad⟩
    · simp_all [hext]

/-- Witness for C3: the amended equivalence applied at the concrete inputs
"ab" outside the home region (rejected: too short) and "abc" outside the home
region (accepted). -/
theorem C3_witness :
    ((validateS3BucketName "ab" "eu-west-1" = none) ↔ specAcceptsOutsideHome "ab" = true) ∧
    ((validateS3BucketName "abc" "eu-west-1" = none) ↔ specAcceptsOutsideHome "abc" = true) :=
  ⟨C3_name_validation_amended.1 "ab" "eu-west-1" (by decide),
   C3_name_validation_amended.1 "abc" "eu-west-1" (by decide)⟩

/-! ## C1 / C4: recursive bucket destroy -/

/-- Helper: DeleteBucket on an absent bucket reports NoSuchBucket. -/
theorem deleteBucketOp_absent (r : RemoteBucket) (hp : r.bucketPresent = false) :
    deleteBucketOp r = .error .noSuchBucket := by
  simp [deleteBucketOp, hp]

/-- Helper: DeleteBucket on a present non-empty bucket reports BucketNotEmpty. -/
theorem deleteBucketOp_nonempty (r : RemoteBucket) (hp : r.bucketPresent = true)
    (h0 : r.objectCount ≠ 0) : deleteBucketOp r = .error .bucketNotEmpty := by
  simp [deleteBucketOp, hp, h0]

/-- Helper: DeleteBucket on a present empty bucket succeeds. -/
theorem deleteBucketOp_empty (r : RemoteBucket) (hp : r.bucketPresent = true)
    (h0 : r.objectCount = 0) : deleteBucketOp r = .ok () := by
  simp [deleteBucketOp, hp, h0]

/-- Helper: deleting an absent bucket returns success immediately with the
remote state untouched and a single DeleteBucket call. -/
theorem delete_absent (force : Bool) (r : RemoteBucket) (hp : r.bucketPresent = false) :
    resourceAwsS3BucketDelete force r = (.ok (), r, [.deleteBucket]) := by
  rw [resourceAwsS3BucketDelete.eq_def]
  split
  · rename_i heq
    rw [deleteBucketOp_absent r hp] at heq
    cases heq
  · rfl
  · rename_i heq
    rw [deleteBucketOp_absent r hp] at heq
    cases heq
  · rename_i e heq
    rw [deleteBucketOp_absent r hp] at heq
    cases heq

/-- Helper: deleting a present empty bucket succeeds with one DeleteBucket
call, marking the bucket absent. -/
theorem delete_empty (force : Bool) (r : RemoteBucket) (hp : r.bucketPresent = true)
    (h0 : r.objectCount = 0) :
    resourceAwsS3BucketDelete force r =
      (.ok (), { r with bucketPresent := false }, [.deleteBucket]) := by
  rw [resourceAwsS3BucketDelete.eq_def]
  split
  · rfl
  · rename_i heq
    rw [deleteBucketOp_empty r hp h0] at heq
    cases heq
  · rename_i heq
    rw [deleteBucketOp_empty r hp h0] at heq
    cases heq
  · rename_i e heq
    rw [deleteBucketOp_empty r hp h0] at heq
    cases heq

/-- Helper: force-destroying a present non-empty bucket (no injected remote
errors) lists, batch-deletes everything, recurses once and succeeds. -/
theorem delete_force_nonempty (r : RemoteBucket) (hp : r.bucketPresent = true)
    (h0 : r.objectCount ≠ 0) (hl : r.listErr = none) (hd : r.deleteObjectsErr = none) :
    resourceAwsS3BucketDelete true r =
      (.ok (), { r with bucketPresent := false, deleteMarkers := [], versions := [] },
        [.deleteBucket, .listObjectVersions,
          .deleteObjects (r.deleteMarkers ++ r.versions), .deleteBucket]) := by
  rw [resourceAwsS3BucketDelete.eq_def]
  split
  · rename_i heq
    rw [deleteBucketOp_nonempty r hp h0] at heq
    cases heq
  · rename_i heq
    rw [deleteBucketOp_nonempty r hp h0] at heq
    cases heq
  · have h2 : (RemoteBucket.mk r.bucketPresent [] [] none none).objectCount = 0 := by
      simp [RemoteBucket.objectCount]
    simp [hl, hd, delete_empty true (RemoteBucket.mk r.bucketPresent [] [] none none) hp h2]
  · rename_i e heq
    rw [deleteBucketOp_nonempty r hp h0] at heq
    cases heq

/-- Helper: plain delete of a present non-empty bucket without force_destroy
propagates the wrapped BucketNotEmpty error; nothing is listed or deleted. -/
theorem delete_noforce_nonempty (r : RemoteBucket) (hp : r.bucketPresent = true)
    (h0 : r.objectCount ≠ 0) :
    resourceAwsS3BucketDelete false r =
      (.error ("error deleting S3 Bucket: " ++ S3Err.text .bucketNotEmpty), r,
        [.deleteBucket]) := by
  rw [resourceAwsS3BucketDelete.eq_def]
  split
  · rename_i heq
    rw [deleteBucketOp_nonempty r hp h0] at heq
    cases heq
  · rename_i heq
    rw [deleteBucketOp_nonempty r hp h0] at heq
    cases heq
  · simp
  · rename_i e heq
    rw [deleteBucketOp_nonempty r hp h0] at heq
    cases heq

/-- Helper: a failing ListObjectVersions aborts the force-destroy with that
error before anything is deleted. -/
theorem delete_force_listErr (r : RemoteBucket) (hp : r.bucketPresent = true)
    (h0 : r.objectCount ≠ 0) (e : String) (hl : r.listErr = some e) :
    resourceAwsS3BucketDelete true r =
      (.error ("Error S3 Bucket list Object Versions err: " ++ e), r,
        [.deleteBucket, .listObjectVersions]) := by
  rw [resourceAwsS3BucketDelete.eq_def]
  split
  · rename_i heq
    rw [deleteBucketOp_nonempty r hp h0] at heq
    cases heq
  · rename_i heq
    rw [deleteBucketOp_nonempty r hp h0] at heq
    cases heq
  · simp [hl]
  · rename_i e2 heq
    rw [deleteBucketOp_nonempty r hp h0] at heq
    cases heq

/-- Helper: a failing batched DeleteObjects aborts the force-destroy with
that error; the remote state is unchanged and there is no recursion. -/
theorem delete_force_deleteErr (r : RemoteBucket) (hp : r.bucketPresent = true)
    (h0 : r.objectCount ≠ 0) (hl : r.listErr = none) (e : String)
    (hd : r.deleteObjectsErr = some e) :
    resourceAwsS3BucketDelete true r =
      (.error ("Error S3 Bucket force_destroy error deleting: " ++ e), r,
        [.deleteBucket, .listObjectVersions,
          .deleteObjects (r.deleteMarkers ++ r.versions)]) := by
  rw [resourceAwsS3BucketDelete.eq_def]
  split
  · rename_i heq
    rw [deleteBucketOp_nonempty r hp h0] at heq
    cases heq
  · rename_i heq
    rw [deleteBucketOp_nonempty r hp h0] at heq
    cases heq
  · simp [hl, hd]
  · rename_i e2 heq
    rw [deleteBucketOp_nonempty r hp h0] at heq
    cases heq

/-- C1: for every delete invocation — a remote "resource not found"
(NoSuchBucket) yields success; "resource not empty" (BucketNotEmpty) with
force_destroy false returns that error having issued no listing or
object-deletion call and leaving the remote state untouched; only with
force_destroy true does it list all object versions and delete markers, issue
one batched delete for all of them, and recurse (here to the successful final
delete). -/
theorem C1_delete_error_dispatch (force : Bool) (r : RemoteBucket) :
    (r.bucketPresent = false →
      resourceAwsS3BucketDelete force r = (.ok (), r, [.deleteBucket])) ∧
    (r.bucketPresent = true → r.objectCount ≠ 0 →
      resourceAwsS3BucketDelete false r =
        (.error ("error deleting S3 Bucket: " ++ S3Err.text .bucketNotEmpty), r,
          [.deleteBucket])) ∧
    (r.bucketPresent = true → r.objectCount ≠ 0 → r.listErr = none →
      r.deleteObjectsErr = none →
      resourceAwsS3BucketDelete true r =
        (.ok (), { r with bucketPresent := false, deleteMarkers := [], versions := [] },
          [.deleteBucket, .listObjectVersions,
            .deleteObjects (r.deleteMarkers ++ r.versions), .deleteBucket])) :=
  ⟨fun hp => delete_absent force r hp,
   fun hp h0 => delete_noforce_nonempty r hp h0,
   fun hp h0 hl hd => delete_force_nonempty r hp h0 hl hd⟩

/-- Witness for C1: an absent bucket (idempotent success), a one-object
bucket without force (error, single call, nothing deleted), and a two-object
bucket with force (list, one batched delete of both, recurse, success). -/
theorem C1_witness :
    resourceAwsS3BucketDelete true (RemoteBucket.mk false [] [] none none) =
      (.ok (), RemoteBucket.mk false [] [] none none, [.deleteBucket]) ∧
    resourceAwsS3BucketDelete false
        (RemoteBucket.mk true [ObjVersion.mk "k" "v1"] [] none none) =
      (.error ("error deleting S3 Bucket: " ++ S3Err.text .bucketNotEmpty),
        RemoteBucket.mk true [ObjVersion.mk "k" "v1"] [] none none, [.deleteBucket]) ∧
    resourceAwsS3BucketDelete true
        (RemoteBucket.mk true [ObjVersion.mk "k" "v1"] [ObjVersion.mk "k" "v2"] none none) =
      (.ok (), RemoteBucket.mk false [] [] none none,
        [.deleteBucket, .listObjectVersions,
          .deleteObjects [ObjVersion.mk "k" "v1", ObjVersion.mk "k" "v2"], .deleteBucket]) :=
  ⟨(C1_delete_error_dispatch true (RemoteBucket.mk false [] [] none none)).1 rfl,
   (C1_delete_error_dispatch false
      (RemoteBucket.mk true [ObjVersion.mk "k" "v1"] [] none none)).2.1 rfl (by decide),
   (C1_delete_error_dispatch true
      (RemoteBucket.mk true [ObjVersion.mk "k" "v1"] [ObjVersion.mk "k" "v2"] none none)).2.2
      rfl (by decide) rfl rfl⟩

/-- C4: under the remote model in which the batched delete removes every
listed version, force-destroy of a present bucket terminates (the embedding
is a total function): it succeeds, empties all objects, removes the bucket,
and the call trace ends in exactly one final successful bucket delete — one
listing and one batched delete of every version and delete marker when the
bucket was non-empty, none when it was already empty; a failing listing or
batched delete instead aborts the recursion with that error. -/
theorem C4_force_destroy_terminates (r : RemoteBucket) (hp : r.bucketPresent = true) :
    (r.listErr = none → r.deleteObjectsErr = none →
      (resourceAwsS3BucketDelete true r).1 = .ok () ∧
      (resourceAwsS3BucketDelete true r).2.1.bucketPresent = false ∧
      (resourceAwsS3BucketDelete true r).2.1.objectCount = 0 ∧
      (resourceAwsS3BucketDelete true r).2.2 =
        (if r.objectCount = 0 then [.deleteBucket]
          else [.deleteBucket, .listObjectVersions,
            .deleteObjects (r.deleteMarkers ++ r.versions), .deleteBucket])) ∧
    (∀ e, r.objectCount ≠ 0 → r.listErr = some e →
      resourceAwsS3BucketDelete true r =
        (.error ("Error S3 Bucket list Object Versions err: " ++ e), r,
          [.deleteBucket, .listObjectVersions])) ∧
    (∀ e, r.objectCount ≠ 0 → r.listErr = none → r.deleteObjectsErr = some e →
      resourceAwsS3BucketDelete true r =
        (.error ("Error S3 Bucket force_destroy error deleting: " ++ e), r,
          [.deleteBucket, .listObjectVersions,
            .deleteObjects (r.deleteMarkers ++ r.versions)])) := by
  refine ⟨?_, ?_, ?_⟩
  · intro hl hd
    by_cases h0 : r.objectCount = 0
    · rw [delete_empty true r hp h0]
      refine ⟨rfl, rfl, ?_, ?_⟩
      · simpa [RemoteBucket.objectCount] using h0
      · simp [h0]
    · rw [delete_force_nonempty r hp h0 hl hd]
      refine ⟨rfl, rfl, ?_, ?_⟩
      · simp [RemoteBucket.objectCount]
      · simp [h0]
  · intro e h0 hl
    exact delete_force_listErr r hp h0 e hl
  · intro e h0 hl hd
    exact delete_force_deleteErr r hp h0 hl e hd

/-- Witness for C4: a bucket with N = 2 objects is emptied by the single
batched delete and removed by the one final successful delete; an injected
listing error aborts with that error. -/
theorem C4_witness :
    ((resourceAwsS3BucketDelete true
        (RemoteBucket.mk true [ObjVersion.mk "a" "1"] [ObjVersion.mk "b" "2"] none none)).1 =
      .ok () ∧
     (resourceAwsS3BucketDelete true
        (RemoteBucket.mk true [ObjVersion.mk "a" "1"] [ObjVersion.mk "b" "2"] none none)).2.1.bucketPresent =
      false ∧
     (resourceAwsS3BucketDelete true
        (RemoteBucket.mk true [ObjVersion.mk "a" "1"] [ObjVersion.mk "b" "2"] none none)).2.1.objectCount =
      0 ∧
     (resourceAwsS3BucketDelete true
        (RemoteBucket.mk true [ObjVersion.mk "a" "1"] [ObjVersion.mk "b" "2"] none none)).2.2 =
      [.deleteBucket, .listObjectVersions,
        .deleteObjects [ObjVersion.mk "a" "1", ObjVersion.mk "b" "2"], .deleteBucket]) ∧
    resourceAwsS3BucketDelete true
        (RemoteBucket.mk true [ObjVersion.mk "a" "1"] [] (some "boom") none) =
      (.error "Error S3 Bucket list Object Versions err: boom",
        RemoteBucket.mk true [ObjVersion.mk "a" "1"] [] (some "boom") none,
        [.deleteBucket, .listObjectVersions]) :=
  ⟨(C4_force_destroy_terminates
      (RemoteBucket.mk true [ObjVersion.mk "a" "1"] [ObjVersion.mk "b" "2"] none none) rfl).1
      rfl rfl,
   (C4_force_destroy_terminates
      (RemoteBucket.mk true [ObjVersion.mk "a" "1"] [] (some "boom") none) rfl).2.1
      "boom" (by decide) rfl⟩

/-! ## C2: replication requires versioning -/

/-- C2: whenever the desired state requests a non-empty replication
configuration while the versioning facet is absent or reports enabled ==
false, the replication synchronizer returns the validation error before any
remote call: no PutBucketReplication (nor any other remote operation) appears
in the issued-call list, whatever the remote would have answered. -/
theorem C2_replication_requires_versioning
    (remote : ReplApiCall → Except String Unit)
    (replicationConfiguration : List ReplConfigIn) (versioning : List VersioningIn)
    (hne : replicationConfiguration ≠ [])
    (hv : versioning = [] ∨ ∃ v rest, versioning = v :: rest ∧ v.enabled = false) :
    resourceAwsS3BucketReplicationConfigurationUpdate remote replicationConfiguration
        versioning =
      (.error "versioning must be enabled to allow S3 bucket replication", []) := by
  match replicationConfiguration, hne with
  | c :: cs, _ =>
    rcases hv with hv | ⟨v, rest, hveq, hen⟩
    · subst hv
      simp [resourceAwsS3BucketReplicationConfigurationUpdate]
    · subst hveq
      simp [resourceAwsS3BucketReplicationConfigurationUpdate, hen]

/-- Witness for C2: one replication configuration with an (ignored) remote
that would accept anything, against absent versioning and against
versioning present but disabled. -/
theorem C2_witness :
    resourceAwsS3BucketReplicationConfigurationUpdate (fun _ => .ok ())
        [ReplConfigIn.mk "role-arn" []] [] =
      (.error "versioning must be enabled to allow S3 bucket replication", []) ∧
    resourceAwsS3BucketReplicationConfigurationUpdate (fun _ => .ok ())
        [ReplConfigIn.mk "role-arn" []] [VersioningIn.mk false false] =
      (.error "versioning must be enabled to allow S3 bucket replication", []) :=
  ⟨C2_replication_requires_versioning (fun _ => .ok ()) [ReplConfigIn.mk "role-arn" []] []
      (by decide) (Or.inl rfl),
   C2_replication_requires_versioning (fun _ => .ok ()) [ReplConfigIn.mk "role-arn" []]
      [VersioningIn.mk false false] (by decide)
      (Or.inr ⟨VersioningIn.mk false false, [], rfl, rfl⟩)⟩

/-! ## C5: acl is skipped on the creation-triggered pass only -/

/-- Helper: a facet name whose every guarded step is disabled is never
invoked, whatever the synchronizers return. -/
theorem runUpdateSteps_count_eq_zero (sync : String → Except String Unit)
    (steps : List (String × Bool)) (name : String)
    (h : ∀ c, (name, c) ∈ steps → c = false) :
    ((runUpdateSteps sync steps).2.count name) = 0 := by
  induction steps with
  | nil => simp [runUpdateSteps]
  | cons p rest ih =>
    obtain ⟨n, c⟩ := p
    have hrest : ∀ c, (name, c) ∈ rest → c = false := fun c hc =>
      h c (List.mem_cons_of_mem _ hc)
    by_cases hn : n = name
    · subst hn
      have : c = false := h c (List.mem_cons_self _ _)
      subst this
      simp only [runUpdateSteps, Bool.false_eq_true, if_false]
      exact ih hrest
    · simp only [runUpdateSteps]
      by_cases hc : c = true
      · subst hc
        simp only [if_true]
        cases hs : sync n with
        | error e =>
          simp [List.count_cons, hn]
        | ok u =>
          cases u
          simp only [List.count_cons]
          rw [ih hrest]
          simp [hn, Ne.symm hn]
      · simp only [hc, if_false]
        exact ih hrest

/-- Helper: when every synchronizer succeeds, the invocation count of a name
is the number of enabled steps bearing it. -/
theorem runUpdateSteps_count_all_ok (sync : String → Except String Unit)
    (hok : ∀ n, sync n = .ok ()) (steps : List (String × Bool)) (name : String) :
    ((runUpdateSteps sync steps).2.count name) =
      (steps.filter (fun p => p.2 && p.1 == name)).length := by
  induction steps with
  | nil => simp [runUpdateSteps]
  | cons p rest ih =>
    obtain ⟨n, c⟩ := p
    by_cases hc : c = true
    · subst hc
      simp only [runUpdateSteps, if_true, hok n, List.count_cons, List.filter_cons,
        Bool.true_and]
      by_cases hn : n = name
      · subst hn
        simp [ih]
      · simp [ih, hn, Ne.symm hn]
    · simp only [runUpdateSteps, hc, if_false, List.filter_cons]
      simp only [hc, Bool.false_and]
      exact ih

/-- C5: on the update pass triggered immediately by creation
(IsNewResource), the acl synchronizer is never invoked, even if acl reports a
change and whatever the other synchronizers return; on any later pass in
which acl has changed (and the pass is not aborted by an earlier failing
synchronizer — here: all synchronizers succeed), the acl synchronizer is
invoked exactly once. -/
theorem C5_acl_creation_pass_guard (ctx : UpdateCtx) :
    (ctx.isNewResource = true →
      ((resourceAwsS3BucketUpdate ctx).2.count "acl") = 0) ∧
    (ctx.isNewResource = false → ctx.hasChange "acl" = true →
      (∀ n, ctx.sync n = .ok ()) →
      ((resourceAwsS3BucketUpdate ctx).2.count "acl") = 1) := by
  constructor
  · intro hnew
    refine runUpdateSteps_count_eq_zero ctx.sync (updateStepList ctx) "acl" ?_
    intro c hc
    simp only [updateStepList, hnew, Bool.not_true, Bool.and_false, List.mem_cons,
      Prod.mk.injEq, List.not_mem_nil, or_false] at hc
    rcases hc with h | h | h | h | h | h | h | h | h | h | h | h | h
    all_goals first
      | (exact h.2)
      | (exact absurd h.1 (by decide))
  · intro hnew hacl hok
    rw [resourceAwsS3BucketUpdate,
      runUpdateSteps_count_all_ok ctx.sync hok (updateStepList ctx) "acl"]
    simp [updateStepList, hnew, hacl]

/-- Witness for C5: with every facet changed and every synchronizer
succeeding, the creation-triggered pass invokes acl zero times and a later
pass invokes it exactly once. -/
theorem C5_witness :
    ((resourceAwsS3BucketUpdate
        (UpdateCtx.mk true (fun _ => true) (fun _ => .ok ()))).2.count "acl") = 0 ∧
    ((resourceAwsS3BucketUpdate
        (UpdateCtx.mk false (fun _ => true) (fun _ => .ok ()))).2.count "acl") = 1 :=
  ⟨(C5_acl_creation_pass_guard (UpdateCtx.mk true (fun _ => true) (fun _ => .ok ()))).1 rfl,
   (C5_acl_creation_pass_guard (UpdateCtx.mk false (fun _ => true) (fun _ => .ok ()))).2
      rfl rfl (fun _ => rfl)⟩

/-! ## C6: website facet -/

/-- C6: applying a website value with both index_document and
redirect_all_requests_to empty fails with the validation error; a non-empty
redirect value that parses as a URL with a non-empty scheme yields a request
carrying HostName = host ++ path ++ (when non-empty) "?" ++ query and
Protocol = the scheme; one that parses with an empty scheme yields HostName =
the raw value with no Protocol set. -/
theorem C6_website_redirect_encoding
    (urlParse : String → Option GoURL) (jsonRules : String → Option (List RoutingRule))
    (bucket : String) (w : WebsiteIn) :
    (w.index_document = "" → w.redirect_all_requests_to = "" →
      resourceAwsS3BucketWebsitePut urlParse jsonRules bucket w =
        .error "Must specify either index_document or redirect_all_requests_to.") ∧
    (∀ u req, w.redirect_all_requests_to ≠ "" →
      urlParse w.redirect_all_requests_to = some u → u.scheme ≠ "" →
      resourceAwsS3BucketWebsitePut urlParse jsonRules bucket w = .ok req →
      req.websiteConfiguration.redirectAllRequestsTo =
        some (S3RedirectAllRequestsTo.mk
          (u.host ++ u.path ++ (if u.rawQuery ≠ "" then "?" ++ u.rawQuery else ""))
          (some u.scheme))) ∧
    (∀ u req, w.redirect_all_requests_to ≠ "" →
      urlParse w.redirect_all_requests_to = some u → u.scheme = "" →
      resourceAwsS3BucketWebsitePut urlParse jsonRules bucket w = .ok req →
      req.websiteConfiguration.redirectAllRequestsTo =
        some (S3RedirectAllRequestsTo.mk w.redirect_all_requests_to none)) := by
  refine ⟨?_, ?_, ?_⟩
  · intro hi hr
    simp [resourceAwsS3BucketWebsitePut, hi, hr]
  · intro u req hred hu hscheme hok
    have hpath : (if u.path = "" then "" else u.path) = u.path := by
      by_cases hp : u.path = "" <;> simp [hp]
    simp [resourceAwsS3BucketWebsitePut, hred, hu, hscheme] at hok
    split at hok
    all_goals try (split at hok)
    all_goals first
      | (cases hok
         simp [hpath, String.append_assoc])
      | (cases hok)
  · intro u req hred hu hscheme hok
    simp [resourceAwsS3BucketWebsitePut, hred, hu, hscheme] at hok
    split at hok
    all_goals try (split at hok)
    all_goals first
      | (cases hok
         simp)
      | (cases hok)

/-- Witness for C6 at the spec's example inputs: an empty website value
errors; redirect "https://example.com/path?x=1" (parsed URL) becomes HostName
"example.com/path?x=1" with Protocol "https"; redirect "plainhost" (parsed
with empty scheme) becomes HostName "plainhost" with no Protocol. -/
theorem C6_witness :
    resourceAwsS3BucketWebsitePut (fun _ => none) (fun _ => none) "b"
        (WebsiteIn.mk "" "" "" "") =
      .error "Must specify either index_document or redirect_all_requests_to." ∧
    (S3PutBucketWebsiteInput.mk "b"
        (S3WebsiteConfiguration.mk none none
          (some (S3RedirectAllRequestsTo.mk "example.com/path?x=1" (some "https")))
          none)).websiteConfiguration.redirectAllRequestsTo =
      some (S3RedirectAllRequestsTo.mk "example.com/path?x=1" (some "https")) ∧
    (S3PutBucketWebsiteInput.mk "b"
        (S3WebsiteConfiguration.mk none none
          (some (S3RedirectAllRequestsTo.mk "plainhost" none))
          none)).websiteConfiguration.redirectAllRequestsTo =
      some (S3RedirectAllRequestsTo.mk "plainhost" none) :=
  ⟨(C6_website_redirect_encoding (fun _ => none) (fun _ => none) "b"
      (WebsiteIn.mk "" "" "" "")).1 rfl rfl,
   (C6_website_redirect_encoding
      (fun _ => some (GoURL.mk "https" "example.com" "/path" "x=1")) (fun _ => none) "b"
      (WebsiteIn.mk "" "" "https://example.com/path?x=1" "")).2.1
      (GoURL.mk "https" "example.com" "/path" "x=1")
      (S3PutBucketWebsiteInput.mk "b"
        (S3WebsiteConfiguration.mk none none
          (some (S3RedirectAllRequestsTo.mk "example.com/path?x=1" (some "https")))
          none))
      (by decide) rfl (by decide) rfl,
   (C6_website_redirect_encoding
      (fun _ => some (GoURL.mk "" "" "plainhost" "")) (fun _ => none) "b"
      (WebsiteIn.mk "" "" "plainhost" "")).2.2
      (GoURL.mk "" "" "plainhost" "")
      (S3PutBucketWebsiteInput.mk "b"
        (S3WebsiteConfiguration.mk none none
          (some (S3RedirectAllRequestsTo.mk "plainhost" none))
          none))
      (by decide) rfl rfl rfl⟩

/-! ## C7: lifecycle rule filter and id -/

/-- C7: for every applied lifecycle rule, a non-empty tag map yields the
compound AND filter over the prefix and the tags, an empty one a bare prefix
filter; a caller-supplied non-empty id is used unchanged, otherwise the rule
gets the generated identifier carrying the "tf-s3-lifecycle-" prefix ahead of
the generator's unique suffix. -/
theorem C7_lifecycle_filter_and_id (uniqueSuffix : String) (r : LifecycleRuleIn) :
    (r.tags ≠ [] →
      (encodeLifecycleRuleHead uniqueSuffix r).filter = .andOp r.pfx r.tags) ∧
    (r.tags = [] →
      (encodeLifecycleRuleHead uniqueSuffix r).filter = .pfxOnly r.pfx) ∧
    (r.id ≠ "" → (encodeLifecycleRuleHead uniqueSuffix r).id = r.id) ∧
    (r.id = "" →
      (encodeLifecycleRuleHead uniqueSuffix r).id = genLifecycleRuleId uniqueSuffix ∧
      genLifecycleRuleId uniqueSuffix = "tf-s3-lifecycle-" ++ uniqueSuffix) := by
  refine ⟨?_, ?_, ?_, ?_⟩
  · intro ht
    have : 0 < r.tags.length := List.length_pos.mpr ht
    simp [encodeLifecycleRuleHead, this]
  · intro ht
    simp [encodeLifecycleRuleHead, ht]
  · intro hid
    simp [encodeLifecycleRuleHead, hid]
  · intro hid
    exact ⟨by simp [encodeLifecycleRuleHead, hid], rfl⟩

/-- Witness for C7: the spec's example rule (prefix "logs/", one tag, no id)
collapses to the compound AND filter and receives the generated prefixed id;
a rule with a caller id and no tags keeps its id and a bare prefix filter. -/
theorem C7_witness :
    (encodeLifecycleRuleHead "sfx" (LifecycleRuleIn.mk "" "logs/" [("k", "v")] true)).filter =
      .andOp "logs/" [("k", "v")] ∧
    (encodeLifecycleRuleHead "sfx" (LifecycleRuleIn.mk "" "logs/" [("k", "v")] true)).id =
      genLifecycleRuleId "sfx" ∧
    (encodeLifecycleRuleHead "sfx" (LifecycleRuleIn.mk "r1" "logs/" [] true)).filter =
      .pfxOnly "logs/" ∧
    (encodeLifecycleRuleHead "sfx" (LifecycleRuleIn.mk "r1" "logs/" [] true)).id = "r1" :=
  ⟨(C7_lifecycle_filter_and_id "sfx" (LifecycleRuleIn.mk "" "logs/" [("k", "v")] true)).1
      (by decide),
   ((C7_lifecycle_filter_and_id "sfx" (LifecycleRuleIn.mk "" "logs/" [("k", "v")] true)).2.2.2
      rfl).1,
   (C7_lifecycle_filter_and_id "sfx" (LifecycleRuleIn.mk "r1" "logs/" [] true)).2.1 rfl,
   (C7_lifecycle_filter_and_id "sfx" (LifecycleRuleIn.mk "r1" "logs/" [] true)).2.2.1
      (by decide)⟩

/-! ## C8: object-lock enablement is creation-time only -/

/-- C8: a desired object-lock change whose enable flag differs from the
enabled prior state ("Enabled") — be it an explicit other value or removal of
the block — is rejected by the pre-flight validation/plan layer before any
remote call is dispatched; moreover the declared ValidateFunc admits only
"Enabled", and the create path honors the enable flag exactly as a
creation-time request flag. -/
theorem C8_object_lock_creation_only (oldFlag : String)
    (newCfg : List (Option ObjectLockConfigIn))
    (hold : oldFlag = "Enabled") (hnew : objectLockFlagOf newCfg ≠ "Enabled") :
    objectLockChangeDispatchable oldFlag newCfg = false ∧
    (∀ s, validateObjectLockEnabled s = true ↔ s = "Enabled") ∧
    (∀ cfg, createObjectLockEnabledForBucket cfg = (objectLockFlagOf cfg == "Enabled")) := by
  refine ⟨?_, ?_, ?_⟩
  · subst hold
    simp only [objectLockChangeDispatchable, Bool.and_eq_false_iff]
    right
    simp [hnew]
  · intro s
    simp [validateObjectLockEnabled]
  · intro cfg
    match cfg with
    | [] => rfl
    | none :: _ => rfl
    | some m :: rest =>
      simp only [createObjectLockEnabledForBucket, expandS3ObjectLockConfiguration,
        objectLockFlagOf]
      by_cases hm : m.object_lock_enabled = ""
      · simp [hm]
      · simp [hm]

/-- Witness for C8: removing the object-lock block (empty desired value) from
an enabled bucket is not dispatchable; the ValidateFunc accepts exactly
"Enabled"; a desired value with the flag "Enabled" sets the creation-time
flag and an absent one does not. -/
theorem C8_witness :
    objectLockChangeDispatchable "Enabled" [] = false ∧
    validateObjectLockEnabled "Disabled" = false ∧
    createObjectLockEnabledForBucket [some (ObjectLockConfigIn.mk "Enabled" [])] = true ∧
    createObjectLockEnabledForBucket [] = false := by
  have h := C8_object_lock_creation_only "Enabled" [] rfl (by decide)
  refine ⟨h.1, ?_, ?_, ?_⟩
  · have h2 := (h.2.1 "Disabled")
    simp only [show ("Disabled" = "Enabled") = False by simp, iff_false] at h2
    simp [h2]
  · rw [h.2.2 [some (ObjectLockConfigIn.mk "Enabled" [])]]
    decide
  · rw [h.2.2 []]
    decide
